import Mathlib

/-!
Verification of the Hyperion Fleet Manager metric-aggregation engine
(`automation/lambda/metric_aggregator`): a shallow embedding in Lean of the
scoring functions, the aggregator, the CloudWatch publisher/query client and
the SSM compliance client, together with theorems checking the stated
properties of each component.

Numeric convention: Python floats are modelled as exact rationals (`ℚ`);
Python's `round(x, n)` is modelled as rounding `x·10ⁿ` to the nearest
integer.  All counts are natural numbers.
-/

set_option autoImplicit false

namespace HyperionFleet

/-- Rounding to 2 decimal places, modelling Python's `round(x, 2)`. -/
def round2 (x : ℚ) : ℚ := ((round (100 * x) : ℤ) : ℚ) / 100

/-- Rounding to 4 decimal places, modelling Python's `round(x, 4)`. -/
def round4 (x : ℚ) : ℚ := ((round (10000 * x) : ℤ) : ℚ) / 10000

/-! ### `config.py`: threshold constants -/

namespace Thresholds

def CPU_WARNING : ℚ := 70
def CPU_CRITICAL : ℚ := 90
def MEMORY_WARNING : ℚ := 75
def MEMORY_CRITICAL : ℚ := 90
def DISK_WARNING : ℚ := 80
def DISK_CRITICAL : ℚ := 95
def COMPLIANCE_WARNING : ℚ := 90
def COMPLIANCE_CRITICAL : ℚ := 80
def CPU_WEIGHT : ℚ := 0.30
def MEMORY_WEIGHT : ℚ := 0.25
def DISK_WEIGHT : ℚ := 0.20
def COMPLIANCE_WEIGHT : ℚ := 0.25
def IDLE_CPU_THRESHOLD : ℚ := 5.0
def UNDERUTILIZED_CPU_THRESHOLD : ℚ := 20.0

end Thresholds

namespace DimensionNames

def ENVIRONMENT : String := "Environment"
def FLEET_NAME : String := "FleetName"

end DimensionNames

namespace MetricNames

def CPU_UTILIZATION : String := "CPUUtilization"
def MEMORY_UTILIZATION : String := "MemoryUtilization"
def DISK_UTILIZATION : String := "DiskUtilization"
def INSTANCE_COUNT : String := "InstanceCount"
def RUNNING_INSTANCES : String := "RunningInstances"
def STOPPED_INSTANCES : String := "StoppedInstances"
def PENDING_INSTANCES : String := "PendingInstances"
def FLEET_HEALTH_SCORE : String := "FleetHealthScore"
def COMPLIANCE_SCORE : String := "ComplianceScore"
def COST_EFFICIENCY_SCORE : String := "CostEfficiencyScore"
def CAPACITY_UTILIZATION : String := "CapacityUtilization"
def COST_PER_INSTANCE : String := "CostPerInstance"
def TOTAL_FLEET_COST : String := "TotalFleetCost"

end MetricNames

/-! ### `metrics.py`: data model -/

inductive HealthStatus where
  | HEALTHY
  | WARNING
  | CRITICAL
  | UNKNOWN
deriving DecidableEq, Repr

inductive ComplianceStatus where
  | COMPLIANT
  | NON_COMPLIANT
  | UNKNOWN
deriving DecidableEq, Repr

structure InstanceMetrics where
  instance_id : String
  instance_type : String := "unknown"
  availability_zone : String := "unknown"
  state : String := "unknown"
  cpu_utilization : Option ℚ := none
  memory_utilization : Option ℚ := none
  disk_utilization : Option ℚ := none
  is_compliant : Option Bool := none
  hourly_cost : ℚ := 0
deriving DecidableEq, Repr

structure FleetMetrics where
  total_instances : ℕ := 0
  running_instances : ℕ := 0
  stopped_instances : ℕ := 0
  pending_instances : ℕ := 0
  avg_cpu_utilization : ℚ := 0
  avg_memory_utilization : ℚ := 0
  avg_disk_utilization : ℚ := 0
  compliant_instances : ℕ := 0
  non_compliant_instances : ℕ := 0
  total_hourly_cost : ℚ := 0
  instance_metrics : List InstanceMetrics := []
deriving DecidableEq, Repr

structure MetricValue where
  name : String
  value : ℚ
  unit : String := "None"
  dimensions : List (String × String) := []
  timestamp : ℕ
deriving DecidableEq, Repr

/-! ### `metrics.py`: FleetHealthScore -/

namespace FleetHealthScore

/-- `FleetHealthScore._calculate_utilization_health`. -/
def calculate_utilization_health
    (utilization warning_threshold critical_threshold : ℚ) : ℚ :=
  if utilization ≤ warning_threshold then
    100 - (utilization / warning_threshold) * 30
  else if utilization ≤ critical_threshold then
    70 - ((utilization - warning_threshold) /
      (critical_threshold - warning_threshold)) * 40
  else
    30 - min 1 ((utilization - critical_threshold) / 10) * 30

/-- `FleetHealthScore._calculate_compliance_health`. -/
def calculate_compliance_health (fleet_metrics : FleetMetrics) : ℚ :=
  let total_checked : ℕ :=
    fleet_metrics.compliant_instances + fleet_metrics.non_compliant_instances
  if total_checked = 0 then
    100
  else
    ((fleet_metrics.compliant_instances : ℚ) / (total_checked : ℚ)) * 100

/-- `FleetHealthScore.calculate`. -/
def calculate (fleet_metrics : FleetMetrics) : ℚ :=
  if fleet_metrics.total_instances = 0 then 0
  else
    let cpu_health := calculate_utilization_health
      fleet_metrics.avg_cpu_utilization Thresholds.CPU_WARNING Thresholds.CPU_CRITICAL
    let memory_health := calculate_utilization_health
      fleet_metrics.avg_memory_utilization Thresholds.MEMORY_WARNING Thresholds.MEMORY_CRITICAL
    let disk_health := calculate_utilization_health
      fleet_metrics.avg_disk_utilization Thresholds.DISK_WARNING Thresholds.DISK_CRITICAL
    let compliance_health := calculate_compliance_health fleet_metrics
    let health_score :=
      cpu_health * Thresholds.CPU_WEIGHT
      + memory_health * Thresholds.MEMORY_WEIGHT
      + disk_health * Thresholds.DISK_WEIGHT
      + compliance_health * Thresholds.COMPLIANCE_WEIGHT
    round2 (min 100 (max 0 health_score))

/-- `FleetHealthScore.get_status`. -/
def get_status (score : ℚ) : HealthStatus :=
  if score ≥ 80 then .HEALTHY
  else if score ≥ 60 then .WARNING
  else if score > 0 then .CRITICAL
  else .UNKNOWN

end FleetHealthScore

/-! ### `metrics.py`: ComplianceScore -/

namespace ComplianceScore

/-- `ComplianceScore.calculate`. -/
def calculate (fleet_metrics : FleetMetrics) : ℚ :=
  let total_checked : ℕ :=
    fleet_metrics.compliant_instances + fleet_metrics.non_compliant_instances
  if total_checked = 0 then
    100
  else
    round2 (((fleet_metrics.compliant_instances : ℚ) / (total_checked : ℚ)) * 100)

/-- `ComplianceScore.get_status`. -/
def get_status (score : ℚ) : HealthStatus :=
  if score ≥ Thresholds.COMPLIANCE_WARNING then .HEALTHY
  else if score ≥ Thresholds.COMPLIANCE_CRITICAL then .WARNING
  else if score > 0 then .CRITICAL
  else .UNKNOWN

end ComplianceScore

/-! ### `metrics.py`: CostEfficiencyScore -/

namespace CostEfficiencyScore

/-- The loop body of `CostEfficiencyScore.calculate`: accumulates
`(idle_count, underutilized_count, well_utilized_count)`. -/
def classify_step (acc : ℕ × ℕ × ℕ) (inst : InstanceMetrics) : ℕ × ℕ × ℕ :=
  match inst.cpu_utilization with
  | none => acc
  | some cpu =>
    if inst.state = "running" then
      if cpu < Thresholds.IDLE_CPU_THRESHOLD then (acc.1 + 1, acc.2.1, acc.2.2)
      else if cpu < Thresholds.UNDERUTILIZED_CPU_THRESHOLD then
        (acc.1, acc.2.1 + 1, acc.2.2)
      else (acc.1, acc.2.1, acc.2.2 + 1)
    else acc

/-- `CostEfficiencyScore.calculate`. -/
def calculate (fleet_metrics : FleetMetrics) : ℚ :=
  if fleet_metrics.running_instances = 0 then 0
  else
    let counts := fleet_metrics.instance_metrics.foldl classify_step (0, 0, 0)
    let idle_count := counts.1
    let underutilized_count := counts.2.1
    let well_utilized_count := counts.2.2
    let total_running := idle_count + underutilized_count + well_utilized_count
    if total_running = 0 then 50
    else
      let efficiency_score : ℚ :=
        ((well_utilized_count * 100 + underutilized_count * 50 + idle_count * 10 : ℕ) : ℚ)
          / (total_running : ℚ)
      round2 (min 100 (max 0 efficiency_score))

/-- `CostEfficiencyScore.get_status`. -/
def get_status (score : ℚ) : HealthStatus :=
  if score ≥ 70 then .HEALTHY
  else if score ≥ 40 then .WARNING
  else if score > 0 then .CRITICAL
  else .UNKNOWN

end CostEfficiencyScore

/-! ### `metrics.py`: CapacityUtilization -/

namespace CapacityUtilization

/-- `CapacityUtilization.calculate`. -/
def calculate (fleet_metrics : FleetMetrics) : ℚ :=
  if fleet_metrics.running_instances = 0 then 0
  else
    let s1 : ℚ × ℕ :=
      if 0 < fleet_metrics.avg_cpu_utilization then
        (fleet_metrics.avg_cpu_utilization, 1) else (0, 0)
    let s2 : ℚ × ℕ :=
      if 0 < fleet_metrics.avg_memory_utilization then
        (s1.1 + fleet_metrics.avg_memory_utilization, s1.2 + 1) else s1
    let s3 : ℚ × ℕ :=
      if 0 < fleet_metrics.avg_disk_utilization then
        (s2.1 + fleet_metrics.avg_disk_utilization, s2.2 + 1) else s2
    if s3.2 = 0 then 0
    else round2 (s3.1 / (s3.2 : ℚ))

/-- `CapacityUtilization.get_status`. -/
def get_status (score : ℚ) : HealthStatus :=
  if 20 ≤ score ∧ score ≤ 70 then .HEALTHY
  else if (10 ≤ score ∧ score < 20) ∨ (70 < score ∧ score ≤ 85) then .WARNING
  else if score > 85 ∨ score < 10 then .CRITICAL
  else .UNKNOWN

end CapacityUtilization

/-! ### `metrics.py`: MetricAggregator

The Python aggregator reads the wall clock once (`datetime.now`) at the start
of `aggregate`; the embedding takes that clock reading as the explicit
argument `timestamp`.  The `environment` / `fleet_name` constructor arguments
become explicit parameters. -/

namespace MetricAggregator

/-- `MetricAggregator.__init__`: the `default_dimensions` attribute. -/
def default_dimensions (environment fleet_name : String) : List (String × String) :=
  [(DimensionNames.ENVIRONMENT, environment),
   (DimensionNames.FLEET_NAME, fleet_name)]

/-- `MetricAggregator._create_instance_count_metrics`. -/
def create_instance_count_metrics (environment fleet_name : String)
    (fleet_metrics : FleetMetrics) (timestamp : ℕ) : List MetricValue :=
  [{ name := MetricNames.INSTANCE_COUNT,
     value := (fleet_metrics.total_instances : ℚ),
     unit := "Count",
     dimensions := default_dimensions environment fleet_name,
     timestamp := timestamp },
   { name := MetricNames.RUNNING_INSTANCES,
     value := (fleet_metrics.running_instances : ℚ),
     unit := "Count",
     dimensions := default_dimensions environment fleet_name,
     timestamp := timestamp },
   { name := MetricNames.STOPPED_INSTANCES,
     value := (fleet_metrics.stopped_instances : ℚ),
     unit := "Count",
     dimensions := default_dimensions environment fleet_name,
     timestamp := timestamp },
   { name := MetricNames.PENDING_INSTANCES,
     value := (fleet_metrics.pending_instances : ℚ),
     unit := "Count",
     dimensions := default_dimensions environment fleet_name,
     timestamp := timestamp }]

/-- `MetricAggregator._create_utilization_metrics`. -/
def create_utilization_metrics (environment fleet_name : String)
    (fleet_metrics : FleetMetrics) (timestamp : ℕ) : List MetricValue :=
  [{ name := MetricNames.CPU_UTILIZATION,
     value := fleet_metrics.avg_cpu_utilization,
     unit := "Percent",
     dimensions := default_dimensions environment fleet_name,
     timestamp := timestamp },
   { name := MetricNames.MEMORY_UTILIZATION,
     value := fleet_metrics.avg_memory_utilization,
     unit := "Percent",
     dimensions := default_dimensions environment fleet_name,
     timestamp := timestamp },
   { name := MetricNames.DISK_UTILIZATION,
     value := fleet_metrics.avg_disk_utilization,
     unit := "Percent",
     dimensions := default_dimensions environment fleet_name,
     timestamp := timestamp }]

/-- `MetricAggregator._create_score_metrics`. -/
def create_score_metrics (environment fleet_name : String)
    (fleet_metrics : FleetMetrics) (timestamp : ℕ) : List MetricValue :=
  [{ name := MetricNames.FLEET_HEALTH_SCORE,
     value := FleetHealthScore.calculate fleet_metrics,
     unit := "Percent",
     dimensions := default_dimensions environment fleet_name,
     timestamp := timestamp },
   { name := MetricNames.COMPLIANCE_SCORE,
     value := ComplianceScore.calculate fleet_metrics,
     unit := "Percent",
     dimensions := default_dimensions environment fleet_name,
     timestamp := timestamp },
   { name := MetricNames.COST_EFFICIENCY_SCORE,
     value := CostEfficiencyScore.calculate fleet_metrics,
     unit := "Percent",
     dimensions := default_dimensions environment fleet_name,
     timestamp := timestamp },
   { name := MetricNames.CAPACITY_UTILIZATION,
     value := CapacityUtilization.calculate fleet_metrics,
     unit := "Percent",
     dimensions := default_dimensions environment fleet_name,
     timestamp := timestamp }]

/-- `MetricAggregator._create_cost_metrics`. -/
def create_cost_metrics (environment fleet_name : String)
    (fleet_metrics : FleetMetrics) (timestamp : ℕ) : List MetricValue :=
  let cost_per_instance : ℚ :=
    if 0 < fleet_metrics.running_instances then
      fleet_metrics.total_hourly_cost / (fleet_metrics.running_instances : ℚ)
    else 0
  [{ name := MetricNames.COST_PER_INSTANCE,
     value := round4 cost_per_instance,
     unit := "None",
     dimensions := default_dimensions environment fleet_name,
     timestamp := timestamp },
   { name := MetricNames.TOTAL_FLEET_COST,
     value := round4 fleet_metrics.total_hourly_cost,
     unit := "None",
     dimensions := default_dimensions environment fleet_name,
     timestamp := timestamp }]

/-- `MetricAggregator.aggregate`. -/
def aggregate (environment fleet_name : String) (timestamp : ℕ)
    (fleet_metrics : FleetMetrics) : List MetricValue :=
  create_instance_count_metrics environment fleet_name fleet_metrics timestamp
    ++ create_utilization_metrics environment fleet_name fleet_metrics timestamp
    ++ create_score_metrics environment fleet_name fleet_metrics timestamp
    ++ create_cost_metrics environment fleet_name fleet_metrics timestamp

end MetricAggregator

/-! ### Spec-side formulations

Definitions in this namespace follow the wording of the specification
(`spec.md` §4.1), to be compared with the embeddings of the source above. -/

namespace Spec

/-- The utilization health curve as worded in the spec: `100 − (u/w)·30` for
`u ≤ w`, `70 − ((u−w)/(c−w))·40` for `w < u ≤ c`, `30 − min(1,(u−c)/10)·30`
for `u > c`. -/
def utilizationCurve (u w c : ℚ) : ℚ :=
  if u ≤ w then 100 - (u / w) * 30
  else if u ≤ c then 70 - ((u - w) / (c - w)) * 40
  else 30 - min 1 ((u - c) / 10) * 30

/-- Compliance health as worded in the spec: `compliant/(compliant+non_compliant)·100`
when compliance data exists, else 100. -/
def complianceHealth (fm : FleetMetrics) : ℚ :=
  if 0 < fm.compliant_instances + fm.non_compliant_instances then
    ((fm.compliant_instances : ℚ)
      / ((fm.compliant_instances + fm.non_compliant_instances : ℕ) : ℚ)) * 100
  else 100

/-- Fleet Health Score as worded in the spec: 0 when the fleet is empty,
otherwise the weighted sum `0.30·cpu + 0.25·mem + 0.20·disk + 0.25·compliance`
of the curve healths at the default thresholds, clamped to [0,100] and rounded
to 2 decimals. -/
def fleetHealthScore (fm : FleetMetrics) : ℚ :=
  if fm.total_instances = 0 then 0
  else
    round2 (max 0 (min 100
      (0.30 * utilizationCurve fm.avg_cpu_utilization 70 90
        + 0.25 * utilizationCurve fm.avg_memory_utilization 75 90
        + 0.20 * utilizationCurve fm.avg_disk_utilization 80 95
        + 0.25 * complianceHealth fm)))

end Spec

/-! ### Helper lemmas -/

/-- Clamping to [0,100] commutes: `min 100 (max 0 x) = max 0 (min 100 x)`. -/
theorem clamp_comm (x : ℚ) : min 100 (max 0 x) = max 0 (min 100 x) := by
  simp only [min_def, max_def]
  split_ifs <;> linarith

/-- The source's curve helper coincides with the spec's curve formula. -/
theorem calculate_utilization_health_eq_curve (u w c : ℚ) :
    FleetHealthScore.calculate_utilization_health u w c = Spec.utilizationCurve u w c := rfl

/-- The source's compliance health coincides with the spec's. -/
theorem calculate_compliance_health_eq (fm : FleetMetrics) :
    FleetHealthScore.calculate_compliance_health fm = Spec.complianceHealth fm := by
  unfold FleetHealthScore.calculate_compliance_health Spec.complianceHealth
  rcases Nat.eq_zero_or_pos (fm.compliant_instances + fm.non_compliant_instances) with h | h
  · simp [h]
  · rw [if_neg (Nat.pos_iff_ne_zero.mp h), if_pos h]

/-- C1: `FleetHealthScore.calculate` returns 0 for an empty fleet and otherwise
the weighted sum `0.30·cpu_health + 0.25·memory_health + 0.20·disk_health +
0.25·compliance_health` of the piecewise curve healths at each metric's
thresholds, with compliance health `compliant/(compliant+non_compliant)·100`
(100 when no compliance data), clamped to [0,100] and rounded to 2 decimals. -/
theorem fleetHealthScore_calculate_spec (fm : FleetMetrics) :
    FleetHealthScore.calculate fm = Spec.fleetHealthScore fm := by
  unfold FleetHealthScore.calculate Spec.fleetHealthScore
  rcases eq_or_ne fm.total_instances 0 with h | h
  · simp [h]
  · rw [if_neg h, if_neg h, ← clamp_comm]
    rw [calculate_compliance_health_eq]
    simp only [calculate_utilization_health_eq_curve,
      Thresholds.CPU_WARNING, Thresholds.CPU_CRITICAL,
      Thresholds.MEMORY_WARNING, Thresholds.MEMORY_CRITICAL,
      Thresholds.DISK_WARNING, Thresholds.DISK_CRITICAL,
      Thresholds.CPU_WEIGHT, Thresholds.MEMORY_WEIGHT,
      Thresholds.DISK_WEIGHT, Thresholds.COMPLIANCE_WEIGHT]
    ring_nf

/-- C2: on thresholds `0 < w < c` the utilization health helper follows the
three-branch piecewise-linear curve, is continuous at the thresholds (value 70
at `u = w`, value 30 at `u = c`), and is 0 for every `u ≥ c + 10`. -/
theorem utilization_health_curve_props (w c : ℚ) (hw : 0 < w) (hwc : w < c) :
    (∀ u, u ≤ w →
      FleetHealthScore.calculate_utilization_health u w c = 100 - (u / w) * 30)
    ∧ (∀ u, w < u → u ≤ c →
      FleetHealthScore.calculate_utilization_health u w c
        = 70 - ((u - w) / (c - w)) * 40)
    ∧ (∀ u, c < u →
      FleetHealthScore.calculate_utilization_health u w c
        = 30 - min 1 ((u - c) / 10) * 30)
    ∧ FleetHealthScore.calculate_utilization_health w w c = 70
    ∧ FleetHealthScore.calculate_utilization_health c w c = 30
    ∧ (∀ u, c + 10 ≤ u →
      FleetHealthScore.calculate_utilization_health u w c = 0) := by
  unfold FleetHealthScore.calculate_utilization_health
  refine ⟨fun u hu => by rw [if_pos hu],
    fun u hu1 hu2 => by rw [if_neg (not_le.mpr hu1), if_pos hu2],
    fun u hu => by rw [if_neg (not_le.mpr (hwc.trans hu)), if_neg (not_le.mpr hu)],
    ?_, ?_, ?_⟩
  · rw [if_pos le_rfl, div_self (ne_of_gt hw)]
    norm_num
  · rw [if_neg (not_le.mpr hwc), if_pos le_rfl,
      div_self (sub_ne_zero.mpr (ne_of_gt hwc))]
    norm_num
  · intro u hu
    have hcu : c < u := lt_of_lt_of_le (by linarith) hu
    rw [if_neg (not_le.mpr (hwc.trans hcu)), if_neg (not_le.mpr hcu)]
    have h1 : (1 : ℚ) ≤ (u - c) / 10 := by
      rw [le_div_iff₀ (by norm_num)]
      linarith
    rw [min_eq_left h1]
    norm_num

namespace Spec

/-- A running instance with a defined CPU value below 5: idle. -/
def idleP (i : InstanceMetrics) : Bool :=
  (i.state == "running") &&
    (match i.cpu_utilization with
     | some cpu => decide (cpu < 5)
     | none => false)

/-- A running instance with a defined CPU value in [5, 20): underutilized. -/
def underutilizedP (i : InstanceMetrics) : Bool :=
  (i.state == "running") &&
    (match i.cpu_utilization with
     | some cpu => decide (5 ≤ cpu) && decide (cpu < 20)
     | none => false)

/-- A running instance with a defined CPU value of at least 20: well-utilized. -/
def wellUtilizedP (i : InstanceMetrics) : Bool :=
  (i.state == "running") &&
    (match i.cpu_utilization with
     | some cpu => decide (20 ≤ cpu)
     | none => false)

/-- Cost Efficiency Score as worded in the spec: 0 without running instances,
50 when no instance is classified, else
`(well·100 + underutilized·50 + idle·10)/count` clamped to [0,100] and rounded
to 2 decimals, counting only running instances with a defined CPU value. -/
def costEfficiencyScore (fm : FleetMetrics) : ℚ :=
  if fm.running_instances = 0 then 0
  else
    let idle := fm.instance_metrics.countP idleP
    let underutilized := fm.instance_metrics.countP underutilizedP
    let well := fm.instance_metrics.countP wellUtilizedP
    let count := idle + underutilized + well
    if count = 0 then 50
    else
      round2 (max 0 (min 100
        (((well : ℚ) * 100 + (underutilized : ℚ) * 50 + (idle : ℚ) * 10) / (count : ℚ))))

/-- Capacity Utilization Score as worded in the spec: 0 without running
instances; otherwise the mean of the three snapshot averages taken only over
the averages strictly greater than 0, rounded to 2 decimals, and 0 when no
average qualifies. -/
def capacityUtilization (fm : FleetMetrics) : ℚ :=
  if fm.running_instances = 0 then 0
  else
    let avgs := [fm.avg_cpu_utilization, fm.avg_memory_utilization,
      fm.avg_disk_utilization].filter (fun a => decide (0 < a))
    if avgs.length = 0 then 0
    else round2 (avgs.sum / (avgs.length : ℚ))

end Spec

/-- The classification loop of `CostEfficiencyScore.calculate` counts exactly
the instances matching the three spec predicates. -/
theorem classify_foldl (l : List InstanceMetrics) : ∀ a b c : ℕ,
    l.foldl CostEfficiencyScore.classify_step (a, b, c)
      = (a + l.countP Spec.idleP, b + l.countP Spec.underutilizedP,
         c + l.countP Spec.wellUtilizedP) := by
  induction l with
  | nil => intro a b c; simp
  | cons i l ih =>
    intro a b c
    rcases hcpu : i.cpu_utilization with _ | cpu
    · rw [List.foldl_cons]
      rw [show CostEfficiencyScore.classify_step (a, b, c) i = (a, b, c) by
        simp [CostEfficiencyScore.classify_step, hcpu]]
      rw [ih a b c]
      simp [List.countP_cons, Spec.idleP, Spec.underutilizedP, Spec.wellUtilizedP, hcpu]
    · by_cases hs : i.state = "running"
      · have hidle : Thresholds.IDLE_CPU_THRESHOLD = (5 : ℚ) := by
          norm_num [Thresholds.IDLE_CPU_THRESHOLD]
        have hunder : Thresholds.UNDERUTILIZED_CPU_THRESHOLD = (20 : ℚ) := by
          norm_num [Thresholds.UNDERUTILIZED_CPU_THRESHOLD]
        by_cases h5 : cpu < 5
        · have h20 : cpu < 20 := h5.trans (by norm_num)
          have hn5 : ¬ (5 : ℚ) ≤ cpu := not_le.mpr h5
          have hn20 : ¬ (20 : ℚ) ≤ cpu := not_le.mpr h20
          rw [List.foldl_cons]
          rw [show CostEfficiencyScore.classify_step (a, b, c) i = (a + 1, b, c) by
            simp [CostEfficiencyScore.classify_step, hcpu, hs, hidle, h5]]
          rw [ih (a + 1) b c]
          simp only [List.countP_cons, Spec.idleP, Spec.underutilizedP,
            Spec.wellUtilizedP, hcpu, hs]
          simp [h5, hn5, hn20]
          omega
        · by_cases h20 : cpu < 20
          · have hge5 : (5 : ℚ) ≤ cpu := not_lt.mp h5
            have hn20 : ¬ (20 : ℚ) ≤ cpu := not_le.mpr h20
            rw [List.foldl_cons]
            rw [show CostEfficiencyScore.classify_step (a, b, c) i = (a, b + 1, c) by
              simp [CostEfficiencyScore.classify_step, hcpu, hs, hidle, hunder, h5, h20]]
            rw [ih a (b + 1) c]
            simp only [List.countP_cons, Spec.idleP, Spec.underutilizedP,
              Spec.wellUtilizedP, hcpu, hs]
            simp [h5, h20, hge5, hn20]
            omega
          · have hge20 : (20 : ℚ) ≤ cpu := not_lt.mp h20
            have hn5 : ¬ cpu < 5 := h5
            have hn20lt : ¬ cpu < 20 := h20
            rw [List.foldl_cons]
            rw [show CostEfficiencyScore.classify_step (a, b, c) i = (a, b, c + 1) by
              simp [CostEfficiencyScore.classify_step, hcpu, hs, hidle, hunder, h5, h20]]
            rw [ih a b (c + 1)]
            simp only [List.countP_cons, Spec.idleP, Spec.underutilizedP,
              Spec.wellUtilizedP, hcpu, hs]
            simp [hn5, hn20lt, hge20]
            omega
      · rw [List.foldl_cons]
        rw [show CostEfficiencyScore.classify_step (a, b, c) i = (a, b, c) by
          simp [CostEfficiencyScore.classify_step, hcpu, hs]]
        rw [ih a b c]
        simp [List.countP_cons, Spec.idleP, Spec.underutilizedP, Spec.wellUtilizedP, hs]

/-- C6: `CostEfficiencyScore.calculate` matches the spec formulation: 0 when
no instance is running, otherwise classifies the running instances with a
defined CPU value into idle (`cpu < 5`), underutilized (`5 ≤ cpu < 20`) and
well-utilized (`cpu ≥ 20`), excludes all other instances, and returns
`(well·100 + underutilized·50 + idle·10)/count` clamped to [0,100] and rounded
to 2 decimals, or 50 when no instance is classified. -/
theorem costEfficiencyScore_calculate_spec (fm : FleetMetrics) :
    CostEfficiencyScore.calculate fm = Spec.costEfficiencyScore fm := by
  unfold CostEfficiencyScore.calculate Spec.costEfficiencyScore
  rcases eq_or_ne fm.running_instances 0 with h | h
  · simp [h]
  · rw [if_neg h, if_neg h]
    rw [classify_foldl fm.instance_metrics 0 0 0]
    simp only [Nat.zero_add]
    rcases eq_or_ne (fm.instance_metrics.countP Spec.idleP
      + fm.instance_metrics.countP Spec.underutilizedP
      + fm.instance_metrics.countP Spec.wellUtilizedP) 0 with hc | hc
    · rw [if_pos hc, if_pos (by omega)]
    · rw [if_neg hc, if_neg (by omega), ← clamp_comm]
      congr 2
      push_cast
      ring

/-- C7: `CapacityUtilization.calculate` matches the spec formulation: 0 when
no instance is running, otherwise the mean of the three snapshot averages
taken only over the averages strictly greater than 0 (an average of exactly 0
is treated as absent), rounded to 2 decimals, and 0 when no average is
positive. -/
theorem capacityUtilization_calculate_spec (fm : FleetMetrics) :
    CapacityUtilization.calculate fm = Spec.capacityUtilization fm := by
  rcases eq_or_ne fm.running_instances 0 with h | h
  · simp [CapacityUtilization.calculate, Spec.capacityUtilization, h]
  · simp only [CapacityUtilization.calculate, Spec.capacityUtilization, if_neg h]
    by_cases h1 : 0 < fm.avg_cpu_utilization <;>
      by_cases h2 : 0 < fm.avg_memory_utilization <;>
        by_cases h3 : 0 < fm.avg_disk_utilization <;>
          (simp [h1, h2, h3, List.filter]; try ring_nf)

/-- C10: for every rational score, `CapacityUtilization.get_status` returns
one of HEALTHY, WARNING or CRITICAL and never UNKNOWN; in particular a score
of 0 classifies CRITICAL, while the other three scorers' `get_status` returns
UNKNOWN for every score ≤ 0. -/
theorem capacity_get_status_total (score : ℚ) :
    (CapacityUtilization.get_status score = HealthStatus.HEALTHY
      ∨ CapacityUtilization.get_status score = HealthStatus.WARNING
      ∨ CapacityUtilization.get_status score = HealthStatus.CRITICAL)
    ∧ CapacityUtilization.get_status score ≠ HealthStatus.UNKNOWN
    ∧ CapacityUtilization.get_status 0 = HealthStatus.CRITICAL
    ∧ (score ≤ 0 →
        FleetHealthScore.get_status score = HealthStatus.UNKNOWN
        ∧ ComplianceScore.get_status score = HealthStatus.UNKNOWN
        ∧ CostEfficiencyScore.get_status score = HealthStatus.UNKNOWN) := by
  have hne : CapacityUtilization.get_status score ≠ HealthStatus.UNKNOWN := by
    unfold CapacityUtilization.get_status
    split_ifs with hA hB hC
    · simp
    · simp
    · simp
    · exfalso
      push_neg at hA hB hC
      obtain ⟨hC1, hC2⟩ := hC
      obtain ⟨hB1, hB2⟩ := hB
      exact absurd (hB2 (hA (hB1 hC2))) (not_lt.mpr hC1)
  refine ⟨?_, hne, ?_, ?_⟩
  · cases hstat : CapacityUtilization.get_status score with
    | HEALTHY => exact Or.inl rfl
    | WARNING => exact Or.inr (Or.inl rfl)
    | CRITICAL => exact Or.inr (Or.inr rfl)
    | UNKNOWN => exact absurd hstat hne
  · norm_num [CapacityUtilization.get_status]
  · intro hs
    refine ⟨?_, ?_, ?_⟩
    · unfold FleetHealthScore.get_status
      rw [if_neg (by linarith), if_neg (by linarith), if_neg (not_lt.mpr hs)]
    · simp only [ComplianceScore.get_status, Thresholds.COMPLIANCE_WARNING,
        Thresholds.COMPLIANCE_CRITICAL]
      rw [if_neg (by linarith), if_neg (by linarith), if_neg (not_lt.mpr hs)]
    · unfold CostEfficiencyScore.get_status
      rw [if_neg (by linarith), if_neg (by linarith), if_neg (not_lt.mpr hs)]

/-- Witness for C10 at the concrete score 0. -/
theorem capacity_get_status_total_witness :
    (0 : ℚ) ≤ 0
    ∧ CapacityUtilization.get_status 0 = HealthStatus.CRITICAL
    ∧ FleetHealthScore.get_status 0 = HealthStatus.UNKNOWN
    ∧ ComplianceScore.get_status 0 = HealthStatus.UNKNOWN
    ∧ CostEfficiencyScore.get_status 0 = HealthStatus.UNKNOWN := by
  obtain ⟨_, _, hcrit, himp⟩ := capacity_get_status_total 0
  obtain ⟨ha, hb, hc⟩ := himp le_rfl
  exact ⟨le_rfl, hcrit, ha, hb, hc⟩

/-- Witness for C2 at the CPU thresholds `w = 70`, `c = 90`. -/
theorem utilization_health_curve_props_witness :
    (0 : ℚ) < 70 ∧ (70 : ℚ) < 90
    ∧ FleetHealthScore.calculate_utilization_health 70 70 90 = 70
    ∧ FleetHealthScore.calculate_utilization_health 90 70 90 = 30
    ∧ FleetHealthScore.calculate_utilization_health 100 70 90 = 0 := by
  obtain ⟨_, _, _, h4, h5, h6⟩ :=
    utilization_health_curve_props 70 90 (by norm_num) (by norm_num)
  exact ⟨by norm_num, by norm_num, h4, h5, h6 100 (by norm_num)⟩

/-- C3: for every snapshot, `MetricAggregator.aggregate` emits exactly 13
points — 4 instance-count, 3 utilization, 4 score and 2 cost points — and
every point carries the dimension pairs `(Environment, env)` and
`(FleetName, fleet_name)` and the single clock reading taken at the start of
the call.  The function is total (it is a Lean `def`), so it cannot raise on
any snapshot, including the all-zero snapshot. -/
theorem aggregate_thirteen_points (environment fleet_name : String)
    (timestamp : ℕ) (fm : FleetMetrics) :
    (MetricAggregator.aggregate environment fleet_name timestamp fm).length = 13
    ∧ (MetricAggregator.create_instance_count_metrics environment fleet_name
        fm timestamp).length = 4
    ∧ (MetricAggregator.create_utilization_metrics environment fleet_name
        fm timestamp).length = 3
    ∧ (MetricAggregator.create_score_metrics environment fleet_name
        fm timestamp).length = 4
    ∧ (MetricAggregator.create_cost_metrics environment fleet_name
        fm timestamp).length = 2
    ∧ (∀ m ∈ MetricAggregator.aggregate environment fleet_name timestamp fm,
        m.dimensions = [(DimensionNames.ENVIRONMENT, environment),
          (DimensionNames.FLEET_NAME, fleet_name)]
        ∧ m.timestamp = timestamp) := by
  refine ⟨rfl, rfl, rfl, rfl, rfl, ?_⟩
  simp only [MetricAggregator.aggregate, MetricAggregator.create_instance_count_metrics,
    MetricAggregator.create_utilization_metrics, MetricAggregator.create_score_metrics,
    MetricAggregator.create_cost_metrics, MetricAggregator.default_dimensions,
    List.forall_mem_append, List.forall_mem_cons, List.forall_mem_ne,
    List.forall_mem_nil]
  simp

/-- Witness for C3 on a concrete fleet: the first emitted point of the
all-zero snapshot carries the default dimensions and the given timestamp. -/
theorem aggregate_thirteen_points_witness :
    ((⟨MetricNames.INSTANCE_COUNT, ((0 : ℕ) : ℚ), "Count",
        MetricAggregator.default_dimensions "dev" "hyperion-fleet", 7⟩ : MetricValue)
      ∈ MetricAggregator.aggregate "dev" "hyperion-fleet" 7 {})
    ∧ (MetricAggregator.aggregate "dev" "hyperion-fleet" 7 {}).length = 13
    ∧ (⟨MetricNames.INSTANCE_COUNT, ((0 : ℕ) : ℚ), "Count",
        MetricAggregator.default_dimensions "dev" "hyperion-fleet", 7⟩
        : MetricValue).dimensions
      = [(DimensionNames.ENVIRONMENT, "dev"), (DimensionNames.FLEET_NAME, "hyperion-fleet")]
    ∧ (⟨MetricNames.INSTANCE_COUNT, ((0 : ℕ) : ℚ), "Count",
        MetricAggregator.default_dimensions "dev" "hyperion-fleet", 7⟩
        : MetricValue).timestamp = 7 := by
  have hmem : (⟨MetricNames.INSTANCE_COUNT, ((0 : ℕ) : ℚ), "Count",
      MetricAggregator.default_dimensions "dev" "hyperion-fleet", 7⟩ : MetricValue)
      ∈ MetricAggregator.aggregate "dev" "hyperion-fleet" 7 {} := by
    simp [MetricAggregator.aggregate, MetricAggregator.create_instance_count_metrics]
  obtain ⟨hlen, _, _, _, _, hall⟩ :=
    aggregate_thirteen_points "dev" "hyperion-fleet" 7 {}
  obtain ⟨hdims, hts⟩ := hall _ hmem
  exact ⟨hmem, hlen, hdims, hts⟩

/-! ### `cloudwatch_client.py`: `CloudWatchMetricClient.publish_metrics`

The CloudWatch backend call `put_metric_data` is modelled as an oracle
`put : List MetricValue → Except (String × String) Unit` returning either
success or an error `(code, message)`.  `publish_metrics` returns the list of
batches for which a backend write call was issued, in order, together with
either the published count or the failure data (the failing batch index
recorded by the error logging and the error code and message carried by the
raised `CloudWatchClientError`). -/

namespace CloudWatchMetricClient

structure PublishFailure where
  batch_index : ℕ
  error_code : String
  error_message : String
deriving DecidableEq, Repr

/-- The batch split `metrics[i : i + MAX_METRICS_PER_BATCH]` for `i` in steps
of `MAX_METRICS_PER_BATCH = 20`. -/
def chunks20 {α : Type} : List α → List (List α)
  | [] => []
  | x :: xs => ((x :: xs).take 20) :: chunks20 ((x :: xs).drop 20)
termination_by l => l.length
decreasing_by simp; omega

/-- The `for batch_index, batch in enumerate(batches)` loop of
`publish_metrics`: issues one write per batch sequentially, accumulating the
published count, and aborts on the first failing batch. -/
def publishLoop (put : List MetricValue → Except (String × String) Unit) :
    List (List MetricValue) → ℕ → ℕ →
    List (List MetricValue) × Except PublishFailure ℕ
  | [], _, published_count => ([], Except.ok published_count)
  | batch :: rest, batch_index, published_count =>
    match put batch with
    | Except.ok _ =>
      let r := publishLoop put rest (batch_index + 1) (published_count + batch.length)
      (batch :: r.1, r.2)
    | Except.error e => ([batch], Except.error ⟨batch_index, e.1, e.2⟩)

/-- `CloudWatchMetricClient.publish_metrics`. -/
def publish_metrics (put : List MetricValue → Except (String × String) Unit)
    (metrics : List MetricValue) :
    List (List MetricValue) × Except PublishFailure ℕ :=
  if metrics.isEmpty then ([], Except.ok 0)
  else publishLoop put (chunks20 metrics) 0 0

end CloudWatchMetricClient

/-- Concatenating the 20-point batches recovers the input list. -/
theorem chunks20_flatten {α : Type} (l : List α) :
    (CloudWatchMetricClient.chunks20 l).flatten = l := by
  induction l using CloudWatchMetricClient.chunks20.induct with
  | case1 => simp [CloudWatchMetricClient.chunks20]
  | case2 x xs ih =>
    simp only [CloudWatchMetricClient.chunks20]
    rw [List.flatten_cons, ih, List.take_append_drop]

/-- Every batch holds between 1 and 20 points. -/
theorem chunks20_batch_size {α : Type} (l : List α) :
    ∀ b ∈ CloudWatchMetricClient.chunks20 l, b.length ≤ 20 ∧ b ≠ [] := by
  induction l using CloudWatchMetricClient.chunks20.induct with
  | case1 => intro b hb; simp [CloudWatchMetricClient.chunks20] at hb
  | case2 x xs ih =>
    intro b hb
    simp only [CloudWatchMetricClient.chunks20] at hb
    rcases List.mem_cons.mp hb with h | h
    · subst h
      refine ⟨by simp, by simp⟩
    · exact ih b h

/-- Every batch except possibly the last holds exactly 20 points. -/
theorem chunks20_full_batches {α : Type} (l : List α) :
    ∀ b ∈ (CloudWatchMetricClient.chunks20 l).dropLast, b.length = 20 := by
  induction l using CloudWatchMetricClient.chunks20.induct with
  | case1 => intro b hb; simp [CloudWatchMetricClient.chunks20] at hb
  | case2 x xs ih =>
    intro b hb
    simp only [CloudWatchMetricClient.chunks20] at hb
    rcases hrest : CloudWatchMetricClient.chunks20 ((x :: xs).drop 20) with _ | ⟨r, rs⟩
    · rw [hrest] at hb
      simp at hb
    · rw [hrest, List.dropLast_cons_of_ne_nil (by simp)] at hb
      rcases List.mem_cons.mp hb with h | h
      · subst h
        have hdrop : (x :: xs).drop 20 ≠ [] := by
          intro hd
          rw [hd] at hrest
          simp [CloudWatchMetricClient.chunks20] at hrest
        have hlen : 20 < (x :: xs).length := by
          by_contra hcon
          exact hdrop (List.drop_eq_nil_of_le (not_lt.mp hcon))
        simp only [List.length_take, List.length_cons] at hlen ⊢
        omega
      · exact ih b (by rw [hrest]; exact h)

/-- An all-successful backend publishes every batch and counts every point. -/
theorem publishLoop_all_ok (put : List MetricValue → Except (String × String) Unit)
    (bs : List (List MetricValue)) :
    ∀ i acc, (∀ b ∈ bs, put b = Except.ok ()) →
      CloudWatchMetricClient.publishLoop put bs i acc
        = (bs, Except.ok (acc + (bs.map List.length).sum)) := by
  induction bs with
  | nil => intro i acc _; simp [CloudWatchMetricClient.publishLoop]
  | cons b rest ih =>
    intro i acc hok
    have hb : put b = Except.ok () := hok b (List.mem_cons_self b rest)
    rw [CloudWatchMetricClient.publishLoop, hb]
    rw [ih (i + 1) (acc + b.length) (fun c hc => hok c (List.mem_cons_of_mem b hc))]
    simp [Nat.add_assoc]

/-- A failing batch aborts the loop at that batch, reporting its index and the
backend error, after the earlier successful batches were submitted. -/
theorem publishLoop_fails_at (put : List MetricValue → Except (String × String) Unit) :
    ∀ (bs : List (List MetricValue)) (k i acc : ℕ) (code msg : String)
      (hk : k < bs.length),
      (∀ b ∈ bs.take k, put b = Except.ok ()) →
      put (bs.get ⟨k, hk⟩) = Except.error (code, msg) →
      CloudWatchMetricClient.publishLoop put bs i acc
        = (bs.take k ++ [bs.get ⟨k, hk⟩], Except.error ⟨i + k, code, msg⟩) := by
  intro bs
  induction bs with
  | nil => intro k i acc code msg hk _ _; cases hk
  | cons b rest ih =>
    intro k i acc code msg hk hpre hfail
    match k with
    | 0 =>
      simp only [List.get] at hfail
      rw [CloudWatchMetricClient.publishLoop, hfail]
      simp
    | Nat.succ j =>
      have hb : put b = Except.ok () := by
        refine hpre b ?_
        rw [List.take_succ_cons]
        exact List.mem_cons_self b _
      rw [CloudWatchMetricClient.publishLoop, hb]
      have hj : j < rest.length := Nat.succ_lt_succ_iff.mp hk
      rw [ih j (i + 1) (acc + b.length) code msg hj
        (fun c hc => hpre c (by rw [List.take_succ_cons]; exact List.mem_cons_of_mem b hc))
        hfail]
      simp only [List.take_succ_cons, List.cons_append, List.get]
      rw [Nat.add_assoc, Nat.add_comm 1 j]

/-- C4: `publish_metrics` splits its input into consecutive batches of exactly
20 points (the last batch possibly smaller), issues one backend write per
batch sequentially; on success it returns the total number of input points;
an empty input returns 0 with no backend call; a failing batch aborts the
call with the failing batch index and the backend error code and message,
the earlier successful batches remaining submitted. -/
theorem publish_metrics_props
    (put : List MetricValue → Except (String × String) Unit)
    (metrics : List MetricValue) :
    (CloudWatchMetricClient.chunks20 metrics).flatten = metrics
    ∧ (∀ b ∈ CloudWatchMetricClient.chunks20 metrics, b.length ≤ 20 ∧ b ≠ [])
    ∧ (∀ b ∈ (CloudWatchMetricClient.chunks20 metrics).dropLast, b.length = 20)
    ∧ CloudWatchMetricClient.publish_metrics put [] = ([], Except.ok 0)
    ∧ ((∀ b ∈ CloudWatchMetricClient.chunks20 metrics, put b = Except.ok ()) →
        CloudWatchMetricClient.publish_metrics put metrics
          = (CloudWatchMetricClient.chunks20 metrics, Except.ok metrics.length))
    ∧ (∀ (k : ℕ) (code msg : String)
        (hk : k < (CloudWatchMetricClient.chunks20 metrics).length),
        (∀ b ∈ (CloudWatchMetricClient.chunks20 metrics).take k,
          put b = Except.ok ()) →
        put ((CloudWatchMetricClient.chunks20 metrics).get ⟨k, hk⟩)
          = Except.error (code, msg) →
        CloudWatchMetricClient.publish_metrics put metrics
          = ((CloudWatchMetricClient.chunks20 metrics).take k
              ++ [(CloudWatchMetricClient.chunks20 metrics).get ⟨k, hk⟩],
             Except.error ⟨k, code, msg⟩)) := by
  refine ⟨chunks20_flatten metrics, chunks20_batch_size metrics,
    chunks20_full_batches metrics, rfl, ?_, ?_⟩
  · intro hok
    rcases metrics with _ | ⟨m, ms⟩
    · simp [CloudWatchMetricClient.publish_metrics, CloudWatchMetricClient.chunks20]
    · rw [CloudWatchMetricClient.publish_metrics]
      rw [if_neg (by simp)]
      rw [publishLoop_all_ok put _ 0 0 hok]
      rw [Nat.zero_add, ← List.length_flatten, chunks20_flatten]
  · intro k code msg hk hpre hfail
    rcases metrics with _ | ⟨m, ms⟩
    · exfalso
      rw [show CloudWatchMetricClient.chunks20 ([] : List MetricValue) = [] by
        simp [CloudWatchMetricClient.chunks20]] at hk
      exact absurd hk (by simp)
    · rw [CloudWatchMetricClient.publish_metrics]
      rw [if_neg (by simp)]
      simpa using
        publishLoop_fails_at put (CloudWatchMetricClient.chunks20 (m :: ms))
          k 0 0 code msg hk hpre hfail

/-- Witness for C4: a two-point publish against an always-successful backend
returns 2, and against an always-failing backend aborts on batch 0 with the
backend error code and message. -/
theorem publish_metrics_props_witness :
    CloudWatchMetricClient.publish_metrics (fun _ => Except.ok ())
        [⟨"a", 1, "None", [], 0⟩, ⟨"b", 2, "None", [], 0⟩]
      = (CloudWatchMetricClient.chunks20
          [⟨"a", 1, "None", [], 0⟩, ⟨"b", 2, "None", [], 0⟩], Except.ok 2)
    ∧ CloudWatchMetricClient.publish_metrics
        (fun _ => Except.error ("Throttling", "Rate exceeded"))
        [⟨"a", 1, "None", [], 0⟩, ⟨"b", 2, "None", [], 0⟩]
      = ([[⟨"a", 1, "None", [], 0⟩, ⟨"b", 2, "None", [], 0⟩]],
         Except.error ⟨0, "Throttling", "Rate exceeded"⟩) := by
  constructor
  · exact (publish_metrics_props (fun _ => Except.ok ())
      [⟨"a", 1, "None", [], 0⟩, ⟨"b", 2, "None", [], 0⟩]).2.2.2.2.1 (fun b _ => rfl)
  · have hk : 0 < (CloudWatchMetricClient.chunks20
        [(⟨"a", 1, "None", [], 0⟩ : MetricValue), ⟨"b", 2, "None", [], 0⟩]).length := by
      simp [CloudWatchMetricClient.chunks20]
    have h := (publish_metrics_props
        (fun _ => Except.error ("Throttling", "Rate exceeded"))
        [⟨"a", 1, "None", [], 0⟩, ⟨"b", 2, "None", [], 0⟩]).2.2.2.2.2
        0 "Throttling" "Rate exceeded" hk (by simp) rfl
    rw [h]
    simp [CloudWatchMetricClient.chunks20]

/-! ### `ssm_client.py` / `handler.py`: instance counting and the snapshot -/

namespace EC2InstanceClient

/-- `EC2InstanceClient.get_instance_counts_by_state`.  The Python counter
dictionary is modelled as its total read view `state ↦ count` (the code reads
it only through `state_counts.get(state, 0)`, which returns 0 for any state
never counted, matching the pre-seeded zero entries). -/
def get_instance_counts_by_state (instances : List InstanceMetrics) : String → ℕ :=
  instances.foldl
    (fun counts inst =>
      let state := inst.state.toLower
      fun s => if s = state then counts s + 1 else counts s)
    (fun _ => 0)

end EC2InstanceClient

namespace Handler

/-- `handler._aggregate_instance_metrics`.  The `compliance_data` dictionary
enters only through `compliance_data.values()`, so it is modelled as the list
of per-instance verdicts. -/
def aggregate_instance_metrics (instances : List InstanceMetrics)
    (state_counts : String → ℕ)
    (compliance_values : List ComplianceStatus) : FleetMetrics :=
  let running_list := instances.filter (fun i => i.state == "running")
  let cpu_values := running_list.filterMap (fun i => i.cpu_utilization)
  let memory_values := running_list.filterMap (fun i => i.memory_utilization)
  let disk_values := running_list.filterMap (fun i => i.disk_utilization)
  { total_instances := instances.length
    running_instances := state_counts "running"
    stopped_instances := state_counts "stopped"
    pending_instances := state_counts "pending"
    avg_cpu_utilization :=
      if running_list ≠ [] ∧ cpu_values ≠ [] then
        round2 (cpu_values.sum / (cpu_values.length : ℚ))
      else 0
    avg_memory_utilization :=
      if running_list ≠ [] ∧ memory_values ≠ [] then
        round2 (memory_values.sum / (memory_values.length : ℚ))
      else 0
    avg_disk_utilization :=
      if running_list ≠ [] ∧ disk_values ≠ [] then
        round2 (disk_values.sum / (disk_values.length : ℚ))
      else 0
    compliant_instances := compliance_values.count ComplianceStatus.COMPLIANT
    non_compliant_instances := compliance_values.count ComplianceStatus.NON_COMPLIANT
    total_hourly_cost :=
      if running_list ≠ [] then (running_list.map (fun i => i.hourly_cost)).sum else 0
    instance_metrics := instances }

end Handler

/-- The state counter equals the number of instances whose lowercased state
matches the queried key. -/
theorem get_instance_counts_eq_countP (instances : List InstanceMetrics) (s : String) :
    EC2InstanceClient.get_instance_counts_by_state instances s
      = instances.countP (fun i => i.state.toLower == s) := by
  suffices h : ∀ (l : List InstanceMetrics) (f : String → ℕ),
      (l.foldl
        (fun counts inst =>
          let state := inst.state.toLower
          fun t => if t = state then counts t + 1 else counts t) f) s
        = f s + l.countP (fun i => i.state.toLower == s) by
    rw [EC2InstanceClient.get_instance_counts_by_state, h]
    exact Nat.zero_add _
  intro l
  induction l with
  | nil => intro f; simp
  | cons i l ih =>
    intro f
    rw [List.foldl_cons, ih, List.countP_cons]
    by_cases hsi : s = i.state.toLower
    · subst hsi
      simp
      omega
    · have hbeq : (i.state.toLower == s) = false := by
        simp only [beq_eq_false_iff_ne]
        exact fun hcon => hsi hcon.symm
      simp [hsi, hbeq]

/-- Counting three pairwise-exclusive predicates never exceeds the length. -/
theorem countP_three_le_length {α : Type} (l : List α) (p q r : α → Bool)
    (hpq : ∀ a, ¬(p a = true ∧ q a = true))
    (hpr : ∀ a, ¬(p a = true ∧ r a = true))
    (hqr : ∀ a, ¬(q a = true ∧ r a = true)) :
    l.countP p + l.countP q + l.countP r ≤ l.length := by
  induction l with
  | nil => simp
  | cons a l ih =>
    simp only [List.countP_cons, List.length_cons]
    by_cases hp : p a = true <;> by_cases hq : q a = true <;> by_cases hr : r a = true
    · exact absurd ⟨hp, hq⟩ (hpq a)
    · exact absurd ⟨hp, hq⟩ (hpq a)
    · exact absurd ⟨hp, hr⟩ (hpr a)
    · simp only [hp, hq, hr]
      simp
      omega
    · exact absurd ⟨hq, hr⟩ (hqr a)
    · simp only [hp, hq, hr]
      simp
      omega
    · simp only [hp, hq, hr]
      simp
      omega
    · simp only [hp, hq, hr]
      simp
      omega

/-- C9: the snapshot built by `_aggregate_instance_metrics` from per-state
counts satisfies `running + stopped + pending ≤ total`, because each instance
has exactly one lifecycle state and contributes to at most one tracked count
(the counts, as naturals, are non-negative by construction). -/
theorem snapshot_counts_invariant (instances : List InstanceMetrics)
    (compliance_values : List ComplianceStatus) :
    (Handler.aggregate_instance_metrics instances
        (EC2InstanceClient.get_instance_counts_by_state instances)
        compliance_values).running_instances
      + (Handler.aggregate_instance_metrics instances
          (EC2InstanceClient.get_instance_counts_by_state instances)
          compliance_values).stopped_instances
      + (Handler.aggregate_instance_metrics instances
          (EC2InstanceClient.get_instance_counts_by_state instances)
          compliance_values).pending_instances
      ≤ (Handler.aggregate_instance_metrics instances
          (EC2InstanceClient.get_instance_counts_by_state instances)
          compliance_values).total_instances := by
  simp only [Handler.aggregate_instance_metrics]
  rw [get_instance_counts_eq_countP, get_instance_counts_eq_countP,
    get_instance_counts_eq_countP]
  refine countP_three_le_length instances _ _ _ ?_ ?_ ?_ <;>
    · intro a ⟨h1, h2⟩
      simp only [beq_iff_eq] at h1 h2
      rw [h1] at h2
      simp at h2

/-! ### `ssm_client.py`: `SSMInventoryClient.get_instance_compliance`

The `list_compliance_items` paginator for one instance is modelled as an
oracle `fetch : String → Except Unit (List (List String))` returning either
every page of compliance-item status strings or a client error (a failed
per-instance query delivers no findings).  The compliance map is modelled as
its total read view `instance_id ↦ Option ComplianceStatus` (`none` for a
string that is not a key). -/

/-- Python's `str.upper()`, written over the character list so that concrete
inputs reduce in the kernel. -/
def pyUpper (s : String) : String := String.mk (s.data.map Char.toUpper)

namespace SSMInventoryClient

/-- The `for item in page` loop of `get_instance_compliance`: `cur` is the
instance's current entry in `compliance_map`; a NON_COMPLIANT item stores
NON_COMPLIANT and breaks, a COMPLIANT item upgrades only an UNKNOWN entry. -/
def processItems (cur : ComplianceStatus) : List String → ComplianceStatus
  | [] => cur
  | status :: rest =>
    if pyUpper status = "NON_COMPLIANT" then ComplianceStatus.NON_COMPLIANT
    else if pyUpper status = "COMPLIANT" then
      processItems
        (if cur = ComplianceStatus.UNKNOWN then ComplianceStatus.COMPLIANT else cur)
        rest
    else processItems cur rest

/-- The `for page in paginator.paginate(...)` loop for one instance (the
NON_COMPLIANT `break` leaves the item loop only; later pages are still
scanned, which cannot change the entry again). -/
def processPages (cur : ComplianceStatus) (pages : List (List String)) : ComplianceStatus :=
  pages.foldl processItems cur

/-- One iteration of the `for instance_id in instance_ids` loop: a client
error for this instance is caught and leaves the map unchanged. -/
def complianceStep (fetch : String → Except Unit (List (List String)))
    (m : String → Option ComplianceStatus) (instance_id : String) :
    String → Option ComplianceStatus :=
  match fetch instance_id with
  | Except.error _ => m
  | Except.ok pages =>
    fun s =>
      if s = instance_id then
        some (processPages ((m instance_id).getD ComplianceStatus.UNKNOWN) pages)
      else m s

/-- `SSMInventoryClient.get_instance_compliance`. -/
def get_instance_compliance (fetch : String → Except Unit (List (List String)))
    (instance_ids : List String) : String → Option ComplianceStatus :=
  let compliance_map : String → Option ComplianceStatus :=
    fun s => if instance_ids.contains s then some ComplianceStatus.UNKNOWN else none
  instance_ids.foldl (complianceStep fetch) compliance_map

end SSMInventoryClient

namespace Spec

/-- The spec's merge policy for one instance's findings: any NON_COMPLIANT
finding wins, else any COMPLIANT finding wins, else UNKNOWN. -/
def mergeFindings (findings : List String) : ComplianceStatus :=
  if findings.any (fun st => pyUpper st == "NON_COMPLIANT") then
    ComplianceStatus.NON_COMPLIANT
  else if findings.any (fun st => pyUpper st == "COMPLIANT") then
    ComplianceStatus.COMPLIANT
  else ComplianceStatus.UNKNOWN

end Spec

/-- Join of compliance verdicts in the severity order
UNKNOWN < COMPLIANT < NON_COMPLIANT (proof device for the merge lemmas). -/
def statJoin (a b : ComplianceStatus) : ComplianceStatus :=
  match a, b with
  | ComplianceStatus.NON_COMPLIANT, _ => ComplianceStatus.NON_COMPLIANT
  | _, ComplianceStatus.NON_COMPLIANT => ComplianceStatus.NON_COMPLIANT
  | ComplianceStatus.COMPLIANT, _ => ComplianceStatus.COMPLIANT
  | _, ComplianceStatus.COMPLIANT => ComplianceStatus.COMPLIANT
  | _, _ => ComplianceStatus.UNKNOWN

theorem statJoin_unknown_right (a : ComplianceStatus) :
    statJoin a ComplianceStatus.UNKNOWN = a := by
  cases a <;> rfl

theorem statJoin_assoc (a b c : ComplianceStatus) :
    statJoin (statJoin a b) c = statJoin a (statJoin b c) := by
  cases a <;> cases b <;> cases c <;> rfl

theorem statJoin_idem (a : ComplianceStatus) : statJoin a a = a := by
  cases a <;> rfl

/-- Splitting the findings splits the spec merge through `statJoin`. -/
theorem mergeFindings_append (l1 l2 : List String) :
    Spec.mergeFindings (l1 ++ l2)
      = statJoin (Spec.mergeFindings l1) (Spec.mergeFindings l2) := by
  unfold Spec.mergeFindings
  rw [List.any_append, List.any_append]
  by_cases h1 : l1.any (fun st => pyUpper st == "NON_COMPLIANT") = true <;>
    by_cases h2 : l2.any (fun st => pyUpper st == "NON_COMPLIANT") = true <;>
      by_cases h3 : l1.any (fun st => pyUpper st == "COMPLIANT") = true <;>
        by_cases h4 : l2.any (fun st => pyUpper st == "COMPLIANT") = true <;>
          simp [h1, h2, h3, h4, statJoin]

/-- The item loop of the source computes the spec merge of the page's
findings, joined onto the entry's current value. -/
theorem processItems_eq_merge (items : List String) : ∀ cur : ComplianceStatus,
    SSMInventoryClient.processItems cur items
      = statJoin cur (Spec.mergeFindings items) := by
  induction items with
  | nil =>
    intro cur
    rw [show Spec.mergeFindings [] = ComplianceStatus.UNKNOWN by rfl,
      statJoin_unknown_right]
    rfl
  | cons status rest ih =>
    intro cur
    by_cases hn : pyUpper status = "NON_COMPLIANT"
    · rw [SSMInventoryClient.processItems, if_pos hn]
      rw [show Spec.mergeFindings (status :: rest) = ComplianceStatus.NON_COMPLIANT by
        unfold Spec.mergeFindings
        rw [if_pos (by simp [List.any_cons, hn])]]
      cases cur <;> rfl
    · by_cases hc : pyUpper status = "COMPLIANT"
      · rw [SSMInventoryClient.processItems, if_neg hn, if_pos hc, ih]
        have hstep : (if cur = ComplianceStatus.UNKNOWN then
            ComplianceStatus.COMPLIANT else cur)
            = statJoin cur ComplianceStatus.COMPLIANT := by
          cases cur <;> rfl
        have hmerge : Spec.mergeFindings (status :: rest)
            = statJoin ComplianceStatus.COMPLIANT (Spec.mergeFindings rest) := by
          rw [show status :: rest = [status] ++ rest by rfl, mergeFindings_append]
          rw [show Spec.mergeFindings [status] = ComplianceStatus.COMPLIANT by
            unfold Spec.mergeFindings
            rw [if_neg (by simp [hn]), if_pos (by simp [hc])]]
        rw [hstep, hmerge, statJoin_assoc]
      · rw [SSMInventoryClient.processItems, if_neg hn, if_neg hc, ih]
        have hmerge : Spec.mergeFindings (status :: rest) = Spec.mergeFindings rest := by
          rw [show status :: rest = [status] ++ rest by rfl, mergeFindings_append]
          rw [show Spec.mergeFindings [status] = ComplianceStatus.UNKNOWN by
            unfold Spec.mergeFindings
            rw [if_neg (by simp [hn]), if_neg (by simp [hc])]]
          cases Spec.mergeFindings rest <;> rfl
        rw [hmerge]

/-- The page loop of the source computes the spec merge of all findings. -/
theorem processPages_eq_merge (pages : List (List String)) :
    ∀ cur : ComplianceStatus,
      SSMInventoryClient.processPages cur pages
        = statJoin cur (Spec.mergeFindings pages.flatten) := by
  induction pages with
  | nil =>
    intro cur
    rw [show ([] : List (List String)).flatten = [] by rfl,
      show Spec.mergeFindings [] = ComplianceStatus.UNKNOWN by rfl,
      statJoin_unknown_right]
    rfl
  | cons p ps ih =>
    intro cur
    rw [show SSMInventoryClient.processPages cur (p :: ps)
        = SSMInventoryClient.processPages (SSMInventoryClient.processItems cur p) ps
      by rfl]
    rw [ih, processItems_eq_merge, List.flatten_cons, mergeFindings_append,
      statJoin_assoc]

theorem statJoin_unknown_left (a : ComplianceStatus) :
    statJoin ComplianceStatus.UNKNOWN a = a := by
  cases a <;> rfl

/-- `List.any` is invariant under permutation of the list. -/
theorem perm_any_eq {l1 l2 : List String} (h : l1.Perm l2) (f : String → Bool) :
    l1.any f = l2.any f := by
  have hiff : l1.any f = true ↔ l2.any f = true := by
    rw [List.any_eq_true, List.any_eq_true]
    constructor
    · rintro ⟨x, hx, hfx⟩; exact ⟨x, h.mem_iff.mp hx, hfx⟩
    · rintro ⟨x, hx, hfx⟩; exact ⟨x, h.mem_iff.mpr hx, hfx⟩
  cases hb : l2.any f with
  | true => exact hiff.mpr hb
  | false =>
    cases hl : l1.any f with
    | false => rfl
    | true => exact absurd (hiff.mp hl) (by rw [hb]; simp)

/-- An instance-loop pass leaves entries of other instances untouched. -/
theorem complianceStep_other (fetch : String → Except Unit (List (List String)))
    (m : String → Option ComplianceStatus) (x id : String) (hx : x ≠ id) :
    SSMInventoryClient.complianceStep fetch m x id = m id := by
  unfold SSMInventoryClient.complianceStep
  cases hfx : fetch x with
  | error e => rfl
  | ok pgs =>
    have hne : ¬ id = x := fun hcon => hx hcon.symm
    simp [hne]

/-- The instance loop stores the spec merge for an instance whose compliance
query succeeds, regardless of the other instances' outcomes. -/
theorem compliance_foldl_ok (fetch : String → Except Unit (List (List String)))
    (id : String) (pages : List (List String))
    (hfetch : fetch id = Except.ok pages) :
    ∀ (ids : List String) (m : String → Option ComplianceStatus),
      (ids.foldl (SSMInventoryClient.complianceStep fetch) m) id
        = if id ∈ ids then
            some (statJoin ((m id).getD ComplianceStatus.UNKNOWN)
              (Spec.mergeFindings pages.flatten))
          else m id := by
  intro ids
  induction ids with
  | nil => intro m; simp
  | cons x ids ih =>
    intro m
    rw [List.foldl_cons]
    by_cases hx : x = id
    · subst hx
      rw [ih (SSMInventoryClient.complianceStep fetch m x)]
      have hm : SSMInventoryClient.complianceStep fetch m x x
          = some (statJoin ((m x).getD ComplianceStatus.UNKNOWN)
              (Spec.mergeFindings pages.flatten)) := by
        unfold SSMInventoryClient.complianceStep
        rw [hfetch]
        simp [processPages_eq_merge]
      by_cases hmem : x ∈ ids
      · rw [if_pos hmem, if_pos (List.mem_cons_self x ids), hm]
        simp [statJoin_assoc, statJoin_idem]
      · rw [if_neg hmem, if_pos (List.mem_cons_self x ids), hm]
    · rw [ih (SSMInventoryClient.complianceStep fetch m x),
        complianceStep_other fetch m x id hx]
      by_cases hmem : id ∈ ids
      · rw [if_pos hmem, if_pos (List.mem_cons_of_mem x hmem)]
      · rw [if_neg hmem]
        rw [if_neg (by
          simp only [List.mem_cons]
          rintro (hcon | hcon)
          · exact hx hcon.symm
          · exact hmem hcon)]

/-- The instance loop leaves an instance whose compliance query fails at its
initial UNKNOWN entry, and keeps processing the other instances. -/
theorem compliance_foldl_err (fetch : String → Except Unit (List (List String)))
    (id : String) (hfetch : fetch id = Except.error ()) :
    ∀ (ids : List String) (m : String → Option ComplianceStatus),
      (ids.foldl (SSMInventoryClient.complianceStep fetch) m) id = m id := by
  intro ids
  induction ids with
  | nil => intro m; rfl
  | cons x ids ih =>
    intro m
    rw [List.foldl_cons, ih]
    by_cases hx : x = id
    · subst hx
      unfold SSMInventoryClient.complianceStep
      rw [hfetch]
    · exact complianceStep_other fetch m x id hx

/-- The instance loop never touches entries outside the queried ids. -/
theorem compliance_foldl_notmem (fetch : String → Except Unit (List (List String)))
    (id : String) :
    ∀ (ids : List String) (m : String → Option ComplianceStatus), id ∉ ids →
      (ids.foldl (SSMInventoryClient.complianceStep fetch) m) id = m id := by
  intro ids
  induction ids with
  | nil => intro m _; rfl
  | cons x ids ih =>
    intro m hnot
    rw [List.foldl_cons, ih _ (fun h => hnot (List.mem_cons_of_mem x h))]
    exact complianceStep_other fetch m x id
      (fun hcon => hnot (hcon ▸ List.mem_cons_self x ids))

/-- C8: `get_instance_compliance` maps a queried instance to NON_COMPLIANT
when any finding is non-compliant, else to COMPLIANT when at least one finding
is compliant, else to UNKNOWN; the merged result is invariant under
reordering of the findings despite the non-compliant short-circuit; a failed
per-instance query leaves that instance at UNKNOWN without aborting the
others (the theorem holds for every mix of per-instance outcomes); ids never
queried are absent from the map. -/
theorem get_instance_compliance_props
    (fetch : String → Except Unit (List (List String)))
    (instance_ids : List String) :
    (∀ id ∈ instance_ids, ∀ pages, fetch id = Except.ok pages →
      SSMInventoryClient.get_instance_compliance fetch instance_ids id
        = some (Spec.mergeFindings pages.flatten))
    ∧ (∀ id ∈ instance_ids, fetch id = Except.error () →
      SSMInventoryClient.get_instance_compliance fetch instance_ids id
        = some ComplianceStatus.UNKNOWN)
    ∧ (∀ id, id ∉ instance_ids →
      SSMInventoryClient.get_instance_compliance fetch instance_ids id = none)
    ∧ (∀ (cur : ComplianceStatus) (l1 l2 : List String), l1.Perm l2 →
      SSMInventoryClient.processItems cur l1
        = SSMInventoryClient.processItems cur l2) := by
  refine ⟨?_, ?_, ?_, ?_⟩
  · intro id hid pages hfetch
    unfold SSMInventoryClient.get_instance_compliance
    rw [compliance_foldl_ok fetch id pages hfetch instance_ids _, if_pos hid]
    simp [hid, statJoin_unknown_left]
  · intro id hid hfetch
    unfold SSMInventoryClient.get_instance_compliance
    rw [compliance_foldl_err fetch id hfetch instance_ids _]
    simp [hid]
  · intro id hid
    unfold SSMInventoryClient.get_instance_compliance
    rw [compliance_foldl_notmem fetch id instance_ids _ hid]
    simp [hid]
  · intro cur l1 l2 hperm
    rw [processItems_eq_merge, processItems_eq_merge]
    have hmerge : Spec.mergeFindings l1 = Spec.mergeFindings l2 := by
      unfold Spec.mergeFindings
      rw [perm_any_eq hperm, perm_any_eq hperm]
    rw [hmerge]

/-- Witness for C8: two instances, one with a compliant and a non-compliant
finding across two pages (merged to NON_COMPLIANT), one whose query fails
(left UNKNOWN); a never-queried id is absent. -/
theorem get_instance_compliance_props_witness :
    SSMInventoryClient.get_instance_compliance
        (fun id => if id = "i-1" then
          Except.ok [["COMPLIANT"], ["NON_COMPLIANT"]] else Except.error ())
        ["i-1", "i-2"] "i-1" = some ComplianceStatus.NON_COMPLIANT
    ∧ SSMInventoryClient.get_instance_compliance
        (fun id => if id = "i-1" then
          Except.ok [["COMPLIANT"], ["NON_COMPLIANT"]] else Except.error ())
        ["i-1", "i-2"] "i-2" = some ComplianceStatus.UNKNOWN
    ∧ SSMInventoryClient.get_instance_compliance
        (fun id => if id = "i-1" then
          Except.ok [["COMPLIANT"], ["NON_COMPLIANT"]] else Except.error ())
        ["i-1", "i-2"] "i-3" = none := by
  obtain ⟨h1, h2, h3, _⟩ := get_instance_compliance_props
    (fun id => if id = "i-1" then
      Except.ok [["COMPLIANT"], ["NON_COMPLIANT"]] else Except.error ())
    ["i-1", "i-2"]
  refine ⟨?_, ?_, ?_⟩
  · have h := h1 "i-1" (by simp) [["COMPLIANT"], ["NON_COMPLIANT"]] (by simp)
    rw [h]
    rfl
  · exact h2 "i-2" (by simp) (by simp)
  · exact h3 "i-3" (by simp)

/-! ### `cloudwatch_client.py`: `CloudWatchMetricClient.query_instance_metrics`

The `GetMetricData` backend (`get_metric_data`, pagination already exhausted)
is modelled as an oracle over one batch of queries.  A query is reduced to its
`Id` (`"m" ++ index`) and the queried instance id; the namespace, metric name,
period and statistic are identical for every query of one call and carry no
information for the properties below.  The Python result dictionary
`results`, pre-seeded as `{iid: None for iid in instance_ids}`, is modelled as
its total read view `String → Option (Option ℚ)`: `none` for a string that is
not a key, `some none` for a key holding Python `None`. -/

namespace CloudWatchMetricClient

structure MDQuery where
  id : String
  instanceId : String
deriving DecidableEq, Repr

structure MDResult where
  id : String
  values : List ℚ
deriving DecidableEq, Repr

/-- The query list built by `query_instance_metrics`: `Id = f"m{idx}"` over
the enumerated instance ids. -/
def mkQueries (instance_ids : List String) : List MDQuery :=
  instance_ids.enum.map (fun p => ⟨"m" ++ toString p.1, p.2⟩)

/-- Python list indexing `lst[k]`, including negative-index wraparound;
`none` models an `IndexError`. -/
def pyGet {α : Type} (l : List α) (k : ℤ) : Option α :=
  if 0 ≤ k then l.get? k.toNat
  else if (-k).toNat ≤ l.length then l.get? (l.length - (-k).toNat)
  else none

/-- One iteration of the `for result in metric_results` loop: parse the
numeric index out of the result `Id` (`int(...)` failures and `IndexError`
are skipped), and store the first returned value for the matching instance of
this batch. -/
def processResultStep (batch_instance_ids : List String) (i : ℕ)
    (res : String → Option (Option ℚ)) (r : MDResult) :
    String → Option (Option ℚ) :=
  if r.id.startsWith "m" then
    match (r.id.drop 1).toNat? with
    | none => res
    | some idx =>
      match pyGet batch_instance_ids ((idx : ℤ) - (i : ℤ)) with
      | none => res
      | some instance_id =>
        match r.values.head? with
        | none => res
        | some v => fun s => if s = instance_id then some (some v) else res s
  else res

/-- The `for result in metric_results` parse-and-merge loop. -/
def processResults (batch_instance_ids : List String) (i : ℕ)
    (rs : List MDResult) (results : String → Option (Option ℚ)) :
    String → Option (Option ℚ) :=
  rs.foldl (processResultStep batch_instance_ids i) results

/-- The 500-query batch split of the `range(0, len(queries), 500)` loop. -/
def chunks500 {α : Type} : List α → List (List α)
  | [] => []
  | x :: xs => ((x :: xs).take 500) :: chunks500 ((x :: xs).drop 500)
termination_by l => l.length
decreasing_by simp; omega

/-- The batch loop of `query_instance_metrics`: one backend request per batch
of at most 500 queries; a failed request is logged and skipped (`continue`),
the remaining batches are still issued.  Returns the requested batches in
order and the final result map. -/
def queryLoop (fetch : List MDQuery → Except Unit (List MDResult)) :
    List MDQuery → List String → ℕ → (String → Option (Option ℚ)) →
    List (List MDQuery) × (String → Option (Option ℚ))
  | [], _, _, results => ([], results)
  | q :: qs, ids, i, results =>
    let batch_queries := (q :: qs).take 500
    let batch_instance_ids := ids.take 500
    let results2 :=
      match fetch batch_queries with
      | Except.ok rs => processResults batch_instance_ids i rs results
      | Except.error _ => results
    let rest := queryLoop fetch ((q :: qs).drop 500) (ids.drop 500) (i + 500) results2
    (batch_queries :: rest.1, rest.2)
termination_by qs _ _ _ => qs.length
decreasing_by simp; omega

/-- `CloudWatchMetricClient.query_instance_metrics`. -/
def query_instance_metrics (fetch : List MDQuery → Except Unit (List MDResult))
    (instance_ids : List String) :
    List (List MDQuery) × (String → Option (Option ℚ)) :=
  if instance_ids.isEmpty then ([], fun _ => none)
  else
    queryLoop fetch (mkQueries instance_ids) instance_ids 0
      (fun s => if instance_ids.contains s then some none else none)

end CloudWatchMetricClient

/-- Every query batch holds at most 500 queries. -/
theorem chunks500_batch_size {α : Type} (l : List α) :
    ∀ b ∈ CloudWatchMetricClient.chunks500 l, b.length ≤ 500 := by
  induction l using CloudWatchMetricClient.chunks500.induct with
  | case1 => intro b hb; simp [CloudWatchMetricClient.chunks500] at hb
  | case2 x xs ih =>
    intro b hb
    simp only [CloudWatchMetricClient.chunks500] at hb
    rcases List.mem_cons.mp hb with h | h
    · subst h; simp
    · exact ih b h

/-- The batch loop issues exactly the 500-sized splits of the query list as
backend requests, in order, whatever the backend answers. -/
theorem queryLoop_trace (fetch : List CloudWatchMetricClient.MDQuery →
      Except Unit (List CloudWatchMetricClient.MDResult))
    (qs : List CloudWatchMetricClient.MDQuery) :
    ∀ (ids : List String) (i : ℕ) (res : String → Option (Option ℚ)),
      (CloudWatchMetricClient.queryLoop fetch qs ids i res).1
        = CloudWatchMetricClient.chunks500 qs := by
  induction qs using CloudWatchMetricClient.chunks500.induct with
  | case1 =>
    intro ids i res
    simp [CloudWatchMetricClient.queryLoop, CloudWatchMetricClient.chunks500]
  | case2 x xs ih =>
    intro ids i res
    simp only [CloudWatchMetricClient.queryLoop, CloudWatchMetricClient.chunks500]
    rw [ih]

/-- A Python list index hit returns an element of the list. -/
theorem pyGet_mem {α : Type} (l : List α) (k : ℤ) (a : α)
    (h : CloudWatchMetricClient.pyGet l k = some a) : a ∈ l := by
  unfold CloudWatchMetricClient.pyGet at h
  by_cases h1 : 0 ≤ k
  · rw [if_pos h1] at h
    exact List.get?_mem h
  · rw [if_neg h1] at h
    by_cases h2 : (-k).toNat ≤ l.length
    · rw [if_pos h2] at h
      exact List.get?_mem h
    · rw [if_neg h2] at h
      cases h

/-- One merge iteration either leaves an entry unchanged or overwrites it
with a value for an instance of its own batch. -/
theorem processResultStep_cases (bi : List String) (i : ℕ)
    (res : String → Option (Option ℚ)) (r : CloudWatchMetricClient.MDResult)
    (s : String) :
    CloudWatchMetricClient.processResultStep bi i res r s = res s
    ∨ ∃ v : ℚ, CloudWatchMetricClient.processResultStep bi i res r s = some (some v)
        ∧ s ∈ bi := by
  unfold CloudWatchMetricClient.processResultStep
  cases hstart : r.id.startsWith "m"
  · simp [hstart]
  · simp only [hstart, if_true]
    rcases hidx : (r.id.drop 1).toNat? with _ | idx <;> simp only [hidx]
    · simp
    · rcases hg : CloudWatchMetricClient.pyGet bi ((idx : ℤ) - (i : ℤ)) with _ | iid <;>
        simp only [hg]
      · simp
      · rcases hh : r.values.head? with _ | v <;> simp only [hh]
        · simp
        · by_cases hs : s = iid
          · exact Or.inr ⟨v, by simp [hs], hs ▸ pyGet_mem bi _ iid hg⟩
          · exact Or.inl (by simp [hs])

theorem processResults_cases (bi : List String) (i : ℕ)
    (rs : List CloudWatchMetricClient.MDResult) (s : String) :
    ∀ res : String → Option (Option ℚ),
      CloudWatchMetricClient.processResults bi i rs res s = res s
      ∨ ∃ v : ℚ, CloudWatchMetricClient.processResults bi i rs res s = some (some v)
          ∧ s ∈ bi := by
  induction rs with
  | nil => intro res; exact Or.inl rfl
  | cons r rs ih =>
    intro res
    rw [show CloudWatchMetricClient.processResults bi i (r :: rs) res
        = CloudWatchMetricClient.processResults bi i rs
            (CloudWatchMetricClient.processResultStep bi i res r) from rfl]
    rcases ih (CloudWatchMetricClient.processResultStep bi i res r) with h | h
    · rw [h]
      exact processResultStep_cases bi i res r s
    · exact Or.inr h

/-- A result-merge pass cannot touch entries outside its batch. -/
theorem processResults_notmem (bi : List String) (i : ℕ)
    (rs : List CloudWatchMetricClient.MDResult) (s : String) (hs : s ∉ bi) :
    ∀ res : String → Option (Option ℚ),
      CloudWatchMetricClient.processResults bi i rs res s = res s := by
  intro res
  rcases processResults_cases bi i rs s res with h | ⟨v, _, hmem⟩
  · exact h
  · exact absurd hmem hs

/-- Through the whole batch loop, the result map has exactly the queried
instance ids as keys, whatever the backend answers. -/
theorem queryLoop_domain (fetch : List CloudWatchMetricClient.MDQuery →
      Except Unit (List CloudWatchMetricClient.MDResult))
    (ids0 : List String) (qs : List CloudWatchMetricClient.MDQuery) :
    ∀ (ids : List String) (i : ℕ) (res : String → Option (Option ℚ)),
      (∀ x ∈ ids, x ∈ ids0) →
      (∀ s, ((res s).isSome = true) ↔ s ∈ ids0) →
      ∀ s, (((CloudWatchMetricClient.queryLoop fetch qs ids i res).2 s).isSome = true)
        ↔ s ∈ ids0 := by
  induction qs using CloudWatchMetricClient.chunks500.induct with
  | case1 =>
    intro ids i res _ hres s
    simpa [CloudWatchMetricClient.queryLoop] using hres s
  | case2 x xs ih =>
    intro ids i res hsub hres s
    simp only [CloudWatchMetricClient.queryLoop]
    refine ih (ids.drop 500) (i + 500) _
      (fun y hy => hsub y (List.mem_of_mem_drop hy)) ?_ s
    intro t
    rcases hf : fetch ((x :: xs).take 500) with _ | rs
    · simpa using hres t
    · simp only []
      rcases processResults_cases (ids.take 500) i rs t res with h | ⟨v, heq, hmem⟩
      · rw [h]
        exact hres t
      · rw [heq]
        simp only [Option.isSome_some, true_iff]
        exact hsub t (List.mem_of_mem_take hmem)

/-- If every batch whose instance group holds `iid` fails, the loop leaves
the entry of `iid` unchanged — and still issues the remaining batches. -/
theorem queryLoop_isolated (fetch : List CloudWatchMetricClient.MDQuery →
      Except Unit (List CloudWatchMetricClient.MDResult)) (iid : String)
    (qs : List CloudWatchMetricClient.MDQuery) :
    ∀ (ids : List String) (i : ℕ) (res : String → Option (Option ℚ)),
      (∀ p ∈ (CloudWatchMetricClient.chunks500 qs).zip
          (CloudWatchMetricClient.chunks500 ids),
        iid ∈ p.2 → fetch p.1 = Except.error ()) →
      (CloudWatchMetricClient.queryLoop fetch qs ids i res).2 iid = res iid := by
  induction qs using CloudWatchMetricClient.chunks500.induct with
  | case1 =>
    intro ids i res _
    simp [CloudWatchMetricClient.queryLoop]
  | case2 x xs ih =>
    intro ids i res hfail
    have htail : ∀ p ∈ (CloudWatchMetricClient.chunks500 ((x :: xs).drop 500)).zip
        (CloudWatchMetricClient.chunks500 (ids.drop 500)),
        iid ∈ p.2 → fetch p.1 = Except.error () := by
      rcases ids with _ | ⟨y, ys⟩
      · intro p hp
        rw [show CloudWatchMetricClient.chunks500 (List.drop 500 ([] : List String))
            = [] by simp [CloudWatchMetricClient.chunks500]] at hp
        simp at hp
      · intro p hp hmem
        refine hfail p ?_ hmem
        rw [show CloudWatchMetricClient.chunks500 (x :: xs)
            = ((x :: xs).take 500) :: CloudWatchMetricClient.chunks500 ((x :: xs).drop 500)
          from by simp only [CloudWatchMetricClient.chunks500]]
        rw [show CloudWatchMetricClient.chunks500 (y :: ys)
            = ((y :: ys).take 500) :: CloudWatchMetricClient.chunks500 ((y :: ys).drop 500)
          from by simp only [CloudWatchMetricClient.chunks500]]
        rw [List.zip_cons_cons]
        exact List.mem_cons_of_mem _ hp
    simp only [CloudWatchMetricClient.queryLoop]
    rw [ih (ids.drop 500) (i + 500) _ htail]
    rcases hf : fetch ((x :: xs).take 500) with _ | rs
    · rfl
    · simp only []
      by_cases hmem : iid ∈ ids.take 500
      · exfalso
        rcases ids with _ | ⟨y, ys⟩
        · simp at hmem
        · have hhead : ((x :: xs).take 500, (y :: ys).take 500)
              ∈ (CloudWatchMetricClient.chunks500 (x :: xs)).zip
                (CloudWatchMetricClient.chunks500 (y :: ys)) := by
            rw [show CloudWatchMetricClient.chunks500 (x :: xs)
                = ((x :: xs).take 500) :: CloudWatchMetricClient.chunks500 ((x :: xs).drop 500)
              from by simp only [CloudWatchMetricClient.chunks500]]
            rw [show CloudWatchMetricClient.chunks500 (y :: ys)
                = ((y :: ys).take 500) :: CloudWatchMetricClient.chunks500 ((y :: ys).drop 500)
              from by simp only [CloudWatchMetricClient.chunks500]]
            rw [List.zip_cons_cons]
            exact List.mem_cons_self _ _
          have herr := hfail _ hhead hmem
          rw [hf] at herr
          cases herr
      · exact processResults_notmem (ids.take 500) i rs iid hmem res

/-- C5 (amended): `query_instance_metrics` issues the per-instance queries in
consecutive backend requests of at most 500 queries each, issues every batch
even when earlier batches fail, keeps exactly the queried instance ids as
keys of the result — an instance with no datapoint stays mapped to `None`
rather than being dropped or raising — and a batch failure only leaves that
batch's instances at `None`. -/
theorem query_instance_metrics_props
    (fetch : List CloudWatchMetricClient.MDQuery →
      Except Unit (List CloudWatchMetricClient.MDResult))
    (instance_ids : List String) :
    (CloudWatchMetricClient.query_instance_metrics fetch instance_ids).1
      = CloudWatchMetricClient.chunks500 (CloudWatchMetricClient.mkQueries instance_ids)
    ∧ (∀ b ∈ (CloudWatchMetricClient.query_instance_metrics fetch instance_ids).1,
        b.length ≤ 500)
    ∧ (∀ iid,
        (((CloudWatchMetricClient.query_instance_metrics fetch instance_ids).2 iid).isSome
          = true) ↔ iid ∈ instance_ids)
    ∧ (∀ iid ∈ instance_ids,
        (∀ p ∈ (CloudWatchMetricClient.chunks500
            (CloudWatchMetricClient.mkQueries instance_ids)).zip
            (CloudWatchMetricClient.chunks500 instance_ids),
          iid ∈ p.2 → fetch p.1 = Except.error ()) →
        (CloudWatchMetricClient.query_instance_metrics fetch instance_ids).2 iid
          = some none) := by
  rcases instance_ids with _ | ⟨a, rest⟩
  · refine ⟨?_, ?_, ?_, ?_⟩
    · simp [CloudWatchMetricClient.query_instance_metrics,
        CloudWatchMetricClient.mkQueries, CloudWatchMetricClient.chunks500]
    · intro b hb
      simp [CloudWatchMetricClient.query_instance_metrics] at hb
    · intro iid
      simp [CloudWatchMetricClient.query_instance_metrics]
    · intro iid hmem
      simp at hmem
  · have hne : ((a :: rest).isEmpty = true) = False := by simp
    refine ⟨?_, ?_, ?_, ?_⟩
    · rw [CloudWatchMetricClient.query_instance_metrics, if_neg (by simp)]
      exact queryLoop_trace fetch _ _ 0 _
    · intro b hb
      rw [CloudWatchMetricClient.query_instance_metrics, if_neg (by simp),
        queryLoop_trace fetch _ _ 0 _] at hb
      exact chunks500_batch_size _ b hb
    · intro iid
      rw [CloudWatchMetricClient.query_instance_metrics, if_neg (by simp)]
      refine queryLoop_domain fetch (a :: rest) _ _ 0 _ (fun x hx => hx) ?_ iid
      intro s
      by_cases hs : s ∈ a :: rest
      · simp [hs]
      · simp [hs]
    · intro iid hmem hforall
      rw [CloudWatchMetricClient.query_instance_metrics, if_neg (by simp)]
      rw [queryLoop_isolated fetch iid _ _ 0 _ hforall]
      simp [hmem]

/-- Counterexample to C5 as stated: for a backend returning no datapoints,
the queried instance id is still a key of the result (mapped to `None`), not
an absent entry. -/
theorem query_missing_instance_is_key_counterexample :
    (CloudWatchMetricClient.query_instance_metrics
        (fun _ => Except.ok []) ["i-0"]).2 "i-0" = some none := by
  simp [CloudWatchMetricClient.query_instance_metrics,
    CloudWatchMetricClient.queryLoop, CloudWatchMetricClient.mkQueries,
    CloudWatchMetricClient.processResults]

/-- Witness for C5 (amended) with one instance and an always-failing backend:
the instance stays a key mapped to `None`, and the batch was still issued. -/
theorem query_instance_metrics_props_witness :
    ("i-0" ∈ ["i-0"])
    ∧ (CloudWatchMetricClient.query_instance_metrics
        (fun _ => Except.error ()) ["i-0"]).2 "i-0" = some none
    ∧ (CloudWatchMetricClient.query_instance_metrics
        (fun _ => Except.error ()) ["i-0"]).1
      = CloudWatchMetricClient.chunks500
          (CloudWatchMetricClient.mkQueries ["i-0"]) := by
  obtain ⟨h1, _, _, h4⟩ :=
    query_instance_metrics_props (fun _ => Except.error ()) ["i-0"]
  exact ⟨by simp, h4 "i-0" (by simp) (fun p _ _ => rfl), h1⟩

end HyperionFleet
